import Mathlib

/-
Shallow embedding of the authorization core of the multi-tenant
administration/purchasing API (security.py, security_dependencies.py,
routers/auth.py, routers/compras_inventarios.py), together with theorems
checking the natural-language specification against it.

Conventions of the embedding:
- Python UUID values are modelled as `Nat` (only equality is used).
- Python `str` values used as passwords are modelled as lists of Unicode
  code points (`List Nat`), so that UTF-8 byte-level truncation is explicit.
- raising an exception is modelled with `Except`; a FastAPI `HTTPException`
  becomes an `HTTPError` value on the error side.
- database tables are modelled as lists of rows; SQLAlchemy
  `query(...).filter(...).all()` becomes `List.filter`, `.first()` becomes
  `List.find?`, `.order_by(...)` becomes a sort of the result rows.
-/

/-- Python UUID values: only equality on them is ever used. -/
abbrev UUID := Nat

/-- schemas/auth.py `TokenData`: the claims extracted from a decoded JWT. -/
structure TokenData where
  nombre_usuario : Option String
  user_id : Option UUID
  cliente_id : Option UUID
  roles : List String
  permisos : List String
deriving DecidableEq, Repr

/-- A FastAPI HTTPException, reduced to the data the endpoints put in it. -/
structure HTTPError where
  status_code : Nat
  detail : String
deriving DecidableEq, Repr

/-- security_dependencies.py: the distinguished role name with full bypass. -/
def SUPER_ADMIN_ROLE_NAME : String := "Super Admin"

/-- security_dependencies.py `require_permission(...)`: the inner
`permission_checker`. Python `if not current_user.cliente_id` is the
`none` test, since a UUID object is always truthy. -/
def permission_checker (permission_code : String) (current_user : TokenData) :
    Except HTTPError TokenData :=
  if SUPER_ADMIN_ROLE_NAME ∈ current_user.roles then
    .ok current_user
  else if permission_code ∉ current_user.permisos then
    .error ⟨403, "Permiso denegado: Se requiere el permiso " ++ permission_code ++ " para esta acción."⟩
  else if current_user.cliente_id = none then
    .error ⟨403, "Acceso denegado: El usuario operativo no está asignado a un cliente (Tenant)."⟩
  else
    .ok current_user

/-- security_dependencies.py `check_super_admin_role`. -/
def check_super_admin_role (current_user : TokenData) : Except HTTPError TokenData :=
  if SUPER_ADMIN_ROLE_NAME ∉ current_user.roles then
    .error ⟨403, "Acceso denegado. Se requiere el rol de Super Administrador para esta operación global."⟩
  else
    .ok current_user

/-- C2: a token whose role-name list contains "Super Admin" is allowed by
`require_permission(C)` for every permission code C, whatever the token's
permission set and tenant id (a null tenant id included). -/
theorem super_admin_guard_bypass (permission_code : String) (u : TokenData)
    (h : SUPER_ADMIN_ROLE_NAME ∈ u.roles) :
    permission_checker permission_code u = .ok u := by
  simp [permission_checker, h]

/-- Witness for C2: a concrete super-admin token with empty permission set
and null tenant id is allowed for an arbitrary permission code. -/
theorem super_admin_guard_bypass_witness :
    SUPER_ADMIN_ROLE_NAME ∈ (TokenData.mk (some "super_admin") (some 9) none ["Super Admin"] []).roles ∧
    permission_checker "inventario.productos.leer"
        (TokenData.mk (some "super_admin") (some 9) none ["Super Admin"] []) =
      .ok (TokenData.mk (some "super_admin") (some 9) none ["Super Admin"] []) :=
  ⟨by decide,
   super_admin_guard_bypass "inventario.productos.leer"
     (TokenData.mk (some "super_admin") (some 9) none ["Super Admin"] []) (by decide)⟩

/-- C3: for a token without the "Super Admin" role, the guard decides in
order: missing permission code denies with the 403 missing-permission
error; present code but null tenant id denies with the 403 no-tenant
error; present code and non-null tenant id allows. -/
theorem guard_non_super_admin_order (permission_code : String) (u : TokenData)
    (hsa : SUPER_ADMIN_ROLE_NAME ∉ u.roles) :
    (permission_code ∉ u.permisos →
      permission_checker permission_code u =
        .error ⟨403, "Permiso denegado: Se requiere el permiso " ++ permission_code ++ " para esta acción."⟩) ∧
    (permission_code ∈ u.permisos → u.cliente_id = none →
      permission_checker permission_code u =
        .error ⟨403, "Acceso denegado: El usuario operativo no está asignado a un cliente (Tenant)."⟩) ∧
    (permission_code ∈ u.permisos → u.cliente_id ≠ none →
      permission_checker permission_code u = .ok u) := by
  refine ⟨fun hp => ?_, fun hp hc => ?_, fun hp hc => ?_⟩
  · simp [permission_checker, hsa, hp]
  · simp [permission_checker, hsa, hp, hc]
  · simp [permission_checker, hsa, hp, hc]

/-- Witness for C3: a concrete operative token holding the code and a
tenant id is allowed. -/
theorem guard_non_super_admin_order_witness :
    SUPER_ADMIN_ROLE_NAME ∉ (TokenData.mk (some "alice") (some 3) (some 1) ["Vendedor"] ["compras.leer"]).roles ∧
    "compras.leer" ∈ (TokenData.mk (some "alice") (some 3) (some 1) ["Vendedor"] ["compras.leer"]).permisos ∧
    (TokenData.mk (some "alice") (some 3) (some 1) ["Vendedor"] ["compras.leer"]).cliente_id ≠ none ∧
    permission_checker "compras.leer"
        (TokenData.mk (some "alice") (some 3) (some 1) ["Vendedor"] ["compras.leer"]) =
      .ok (TokenData.mk (some "alice") (some 3) (some 1) ["Vendedor"] ["compras.leer"]) :=
  ⟨by decide, by decide, by decide,
   (guard_non_super_admin_order "compras.leer"
     (TokenData.mk (some "alice") (some 3) (some 1) ["Vendedor"] ["compras.leer"])
     (by decide)).2.2 (by decide) (by decide)⟩

/-
JWT codec (security.py). Tokens from the `jose` library are modelled as
either an unparseable blob or a signed structure carrying the payload, the
embedded expiry timestamp and the signing key/algorithm; `jose.jwt.decode`
rejects a wrong key or algorithm (bad signature) and an elapsed expiry.
Timestamps are UNIX seconds as integers; a `timedelta` is its total seconds.
-/

/-- security.py `SECRET_KEY` (the in-repo default value). -/
def SECRET_KEY : String := "TU_CLAVE_SECRETA_POR_DEFECTO_O_INSEGURA"

/-- security.py `ALGORITHM`. -/
def ALGORITHM : String := "HS256"

/-- security.py `ACCESS_TOKEN_EXPIRE_MINUTES`. -/
def ACCESS_TOKEN_EXPIRE_MINUTES : Nat := 60

/-- Failure causes inside the jose library; all of them extend `JWTError`. -/
inductive JoseError where
  | malformedStructure
  | badSignature
  | expiredSignature
deriving DecidableEq, Repr

/-- A candidate JWT string: either not a well-formed token at all, or a
signed token with payload, expiry and the key/algorithm it was signed with. -/
inductive JWS (α : Type) where
  | malformed (raw : String)
  | signed (payload : α) (exp : Int) (key : String) (alg : String)
deriving DecidableEq, Repr

/-- Model of `jose.jwt.encode(to_encode, key, algorithm)` where `to_encode`
is the payload plus the `exp` claim. -/
def jose_encode (payload : α) (exp : Int) (key : String) (alg : String) : JWS α :=
  .signed payload exp key alg

/-- Model of `jose.jwt.decode(token, key, algorithms)` at current time
`now`: malformed structure, a signature not made with `key` and one of
`algorithms`, and an expiry in the past each raise a `JWTError`. -/
def jose_decode (key : String) (algorithms : List String) (now : Int) :
    JWS α → Except JoseError α
  | .malformed _ => .error .malformedStructure
  | .signed payload exp k alg =>
    if k ≠ key ∨ alg ∉ algorithms then .error .badSignature
    else if exp < now then .error .expiredSignature
    else .ok payload

/-- security.py `create_access_token(data, expires_delta)`. `expires_delta`
is an optional duration in seconds; the Python guard `if expires_delta:` is
falsy both for `None` and for a zero `timedelta`, so both fall to the
60-minute default. -/
def create_access_token (data : α) (expires_delta : Option Int) (now : Int) : JWS α :=
  let expire : Int :=
    match expires_delta with
    | some d => if d ≠ 0 then now + d else now + (ACCESS_TOKEN_EXPIRE_MINUTES : Int) * 60
    | none => now + (ACCESS_TOKEN_EXPIRE_MINUTES : Int) * 60
  jose_encode data expire SECRET_KEY ALGORITHM

/-- security.py `decode_access_token(token)`: every `JWTError` (and any
other exception) is caught and turned into `None`. -/
def decode_access_token (token : JWS α) (now : Int) : Option α :=
  match jose_decode SECRET_KEY [ALGORITHM] now token with
  | .ok payload => some payload
  | .error _ => none

/-- The expiry offset `create_access_token` actually applies, read off from
its branch structure: a nonzero caller-supplied delta is used as is, `None`
and a zero delta both give the 60-minute default. -/
def effective_ttl (expires_delta : Option Int) : Int :=
  match expires_delta with
  | some d => if d ≠ 0 then d else (ACCESS_TOKEN_EXPIRE_MINUTES : Int) * 60
  | none => (ACCESS_TOKEN_EXPIRE_MINUTES : Int) * 60

/-- Decoding a token signed with the configured key and algorithm succeeds
exactly while the embedded expiry is not past. -/
theorem decode_signed_self_key (α : Type) (p : α) (e t : Int) :
    decode_access_token (JWS.signed p e SECRET_KEY ALGORITHM) t =
      if e < t then none else some p := by
  by_cases h : e < t <;> simp [decode_access_token, jose_decode, h]

/-- Counterexample to C5: with a zero ttl the embedded expiry is not
`now + ttl` but `now + 3600`, so a decode strictly after `issuance + ttl`
still returns the original claims instead of invalid, because
`if expires_delta:` treats a zero `timedelta` like `None`. -/
theorem token_ttl_zero_counterexample :
    (0 : Int) + 0 < 1 ∧
    decode_access_token (create_access_token (0 : Nat) (some 0) 0) 1 = some 0 ∧
    create_access_token (0 : Nat) (some 0) 0 ≠ jose_encode 0 (0 + 0) SECRET_KEY ALGORITHM := by
  refine ⟨by decide, by rfl, by decide⟩

/-- C5 as amended: issuance embeds expiry `now + ttl` for every nonzero
ttl, while `None` and a zero ttl both default to 60 minutes; decoding at
time `t` returns the original claims iff `t` is not past that embedded
expiry, and invalid (`none`) otherwise. -/
theorem token_roundtrip_with_expiry (α : Type) (claims : α) (expires_delta : Option Int)
    (now t : Int) :
    decode_access_token (create_access_token claims expires_delta now) t =
      if now + effective_ttl expires_delta < t then none else some claims := by
  rcases expires_delta with _ | d
  · simpa [create_access_token, effective_ttl, jose_encode] using
      decode_signed_self_key α claims (now + (ACCESS_TOKEN_EXPIRE_MINUTES : Int) * 60) t
  · by_cases hd : d = 0
    · simpa [create_access_token, effective_ttl, jose_encode, hd] using
        decode_signed_self_key α claims (now + (ACCESS_TOKEN_EXPIRE_MINUTES : Int) * 60) t
    · simpa [create_access_token, effective_ttl, jose_encode, hd] using
        decode_signed_self_key α claims (now + d) t

/-- C6: `decode_access_token` is total and collapses the three jose failure
causes — malformed structure, bad signature (wrong key or algorithm), and
elapsed expiry — to the single value `none`, indistinguishable to callers. -/
theorem decode_uniform_invalid (α : Type) (raw : String) (payload : α)
    (exp : Int) (k alg : String) (now : Int) :
    (decode_access_token (JWS.malformed raw) now = (none : Option α)) ∧
    (k ≠ SECRET_KEY ∨ alg ≠ ALGORITHM →
      decode_access_token (JWS.signed payload exp k alg) now = none) ∧
    (exp < now →
      decode_access_token (JWS.signed payload exp SECRET_KEY ALGORITHM) now = none) ∧
    (∀ e, jose_decode SECRET_KEY [ALGORITHM] now (JWS.signed payload exp k alg) = .error e →
      decode_access_token (JWS.signed payload exp k alg) now = none) := by
  refine ⟨rfl, fun h => ?_, fun h => ?_, fun e he => ?_⟩
  · rcases h with h | h <;> simp [decode_access_token, jose_decode, h]
  · simp [decode_access_token, jose_decode, h]
  · simp [decode_access_token, he]

/-- Witness for C6: the three failure causes on concrete tokens all give
`none`. -/
theorem decode_uniform_invalid_witness :
    decode_access_token (JWS.malformed "xx") 5 = (none : Option Nat) ∧
    decode_access_token (JWS.signed (7 : Nat) 100 "otra_clave" "HS256") 5 = none ∧
    decode_access_token (JWS.signed (7 : Nat) 3 SECRET_KEY ALGORITHM) 5 = none :=
  ⟨(decode_uniform_invalid Nat "xx" 7 100 "otra_clave" "HS256" 5).1,
   (decode_uniform_invalid Nat "xx" 7 100 "otra_clave" "HS256" 5).2.1 (Or.inl (by decide)),
   (decode_uniform_invalid Nat "xx" 7 3 SECRET_KEY ALGORITHM 5).2.2.1 (by decide)⟩

/-
Credential hashing (security.py). A Python `str` is modelled as its list of
Unicode code points; `str.encode("utf-8")` is the explicit UTF-8 byte
encoding. The bcrypt primitive consumes at most the first 72 bytes of the
secret; a digest is modelled as retaining the salt and those consumed
bytes, which is the information verification recomputes against.
-/

/-- A Python `str`, as its sequence of Unicode code points. -/
abbrev PyStr := List Nat

/-- UTF-8 encoding of a single code point. -/
def utf8EncodeCp (n : Nat) : List Nat :=
  if n < 0x80 then [n]
  else if n < 0x800 then [0xC0 + n / 64, 0x80 + n % 64]
  else if n < 0x10000 then [0xE0 + n / 4096, 0x80 + n / 64 % 64, 0x80 + n % 64]
  else [0xF0 + n / 0x40000, 0x80 + n / 4096 % 64, 0x80 + n / 64 % 64, 0x80 + n % 64]

/-- `str.encode("utf-8")`. -/
def utf8Encode : PyStr → List Nat
  | [] => []
  | c :: cs => utf8EncodeCp c ++ utf8Encode cs

/-- Model of `bytes.decode("utf-8", errors="ignore")`: decode sequences
greedily, skip bytes at which no sequence can start, and drop an incomplete
sequence at the end of the input. `truncate_password` only ever applies
this to a prefix of a valid UTF-8 encoding, where these rules coincide
exactly with CPython's ignore-errors decoder: whole characters survive and
a trailing partial character is dropped. -/
def utf8DecodeIgnoreFuel : Nat → List Nat → PyStr
  | 0, _ => []
  | _ + 1, [] => []
  | fuel + 1, b1 :: rest =>
    if b1 < 0x80 then b1 :: utf8DecodeIgnoreFuel fuel rest
    else if b1 < 0xC0 then utf8DecodeIgnoreFuel fuel rest
    else if b1 < 0xE0 then
      match rest with
      | [] => []
      | b2 :: rest2 =>
        if 0x80 ≤ b2 ∧ b2 < 0xC0 then
          ((b1 - 0xC0) * 64 + (b2 - 0x80)) :: utf8DecodeIgnoreFuel fuel rest2
        else utf8DecodeIgnoreFuel fuel (b2 :: rest2)
    else if b1 < 0xF0 then
      match rest with
      | b2 :: b3 :: rest3 =>
        if (0x80 ≤ b2 ∧ b2 < 0xC0) ∧ (0x80 ≤ b3 ∧ b3 < 0xC0) then
          ((b1 - 0xE0) * 4096 + (b2 - 0x80) * 64 + (b3 - 0x80)) :: utf8DecodeIgnoreFuel fuel rest3
        else utf8DecodeIgnoreFuel fuel (b2 :: b3 :: rest3)
      | _ => []
    else
      match rest with
      | b2 :: b3 :: b4 :: rest4 =>
        if (0x80 ≤ b2 ∧ b2 < 0xC0) ∧ (0x80 ≤ b3 ∧ b3 < 0xC0) ∧ (0x80 ≤ b4 ∧ b4 < 0xC0) then
          ((b1 - 0xF0) * 0x40000 + (b2 - 0x80) * 4096 + (b3 - 0x80) * 64 + (b4 - 0x80)) ::
            utf8DecodeIgnoreFuel fuel rest4
        else utf8DecodeIgnoreFuel fuel (b2 :: b3 :: b4 :: rest4)
      | _ => []

/-- The decoder applied with enough fuel for its whole input: one unit of
fuel is spent per decoded or skipped sequence, and every step consumes at
least one byte, so the input length is always enough fuel. -/
def utf8DecodeIgnore (bs : List Nat) : PyStr := utf8DecodeIgnoreFuel bs.length bs

/-- A structurally valid bcrypt digest: the salt together with the at most
72 secret bytes the primitive consumed. -/
structure BcryptDigest where
  salt : Nat
  key : List Nat
deriving DecidableEq, Repr

/-- Model of the bcrypt primitive: at most the first 72 bytes of the
secret enter the hash. -/
def bcrypt_hashpw (secret : List Nat) (salt : Nat) : BcryptDigest :=
  ⟨salt, secret.take 72⟩

/-- bcrypt verification: re-hash with the stored salt and compare digests. -/
def bcrypt_checkpw (secret : List Nat) (digest : BcryptDigest) : Bool :=
  decide (bcrypt_hashpw secret digest.salt = digest)

/-- A stored digest string: either a bcrypt digest, or a string passlib
cannot identify as one. -/
inductive HashStr where
  | wf (digest : BcryptDigest)
  | unidentified (raw : String)
deriving DecidableEq, Repr

/-- passlib error: `UnknownHashError` (a `ValueError`) for a digest string
that cannot be identified as a configured scheme. -/
inductive PasslibError where
  | unknownHash
deriving DecidableEq, Repr

/-- Model of `pwd_context.verify(secret, hash)`: an unidentifiable digest
raises `UnknownHashError` (passlib's documented behaviour); an identified
digest is checked by the bcrypt primitive. -/
def pwd_context_verify (secret : PyStr) (hashed : HashStr) : Except PasslibError Bool :=
  match hashed with
  | .wf d => .ok (bcrypt_checkpw (utf8Encode secret) d)
  | .unidentified _ => .error .unknownHash

/-- Model of `pwd_context.hash(secret)` with a fresh salt. -/
def pwd_context_hash (secret : PyStr) (salt : Nat) : HashStr :=
  .wf (bcrypt_hashpw (utf8Encode secret) salt)

/-- security.py `truncate_password(password, max_length=72)`. -/
def truncate_password (password : PyStr) : PyStr :=
  let password_bytes := utf8Encode password
  if password_bytes.length > 72 then utf8DecodeIgnore (password_bytes.take 72)
  else password

/-- security.py `verify_password`: a bare call to `pwd_context.verify`,
with no truncation and no exception handling of its own. -/
def verify_password (plain_password : PyStr) (hashed_password : HashStr) :
    Except PasslibError Bool :=
  pwd_context_verify plain_password hashed_password

/-- security.py `get_password_hash`: truncate, then hash; the surrounding
try/except re-raises unchanged. -/
def get_password_hash (password : PyStr) (salt : Nat) : HashStr :=
  pwd_context_hash (truncate_password password) salt

/-- Length of the UTF-8 encoding of one code point. -/
theorem utf8EncodeCp_length (n : Nat) :
    (utf8EncodeCp n).length =
      if n < 0x80 then 1 else if n < 0x800 then 2 else if n < 0x10000 then 3 else 4 := by
  by_cases h1 : n < 0x80 <;> by_cases h2 : n < 0x800 <;> by_cases h3 : n < 0x10000 <;>
    simp [utf8EncodeCp, h1, h2, h3]

/-- One-byte UTF-8 encodings. -/
theorem utf8EncodeCp_length_ascii (n : Nat) (h : n < 0x80) : (utf8EncodeCp n).length = 1 := by
  simp [utf8EncodeCp, h]

/-- Code points below U+0800 encode to at most two bytes. -/
theorem utf8EncodeCp_length_le_two (n : Nat) (h : n < 0x800) : (utf8EncodeCp n).length ≤ 2 := by
  unfold utf8EncodeCp
  split_ifs <;> simp_all

/-- Code points below U+10000 encode to at most three bytes. -/
theorem utf8EncodeCp_length_le_three (n : Nat) (h : n < 0x10000) : (utf8EncodeCp n).length ≤ 3 := by
  unfold utf8EncodeCp
  split_ifs <;> simp_all

/-- Every code point encodes to at most four bytes. -/
theorem utf8EncodeCp_length_le_four (n : Nat) : (utf8EncodeCp n).length ≤ 4 := by
  unfold utf8EncodeCp
  split_ifs <;> simp_all

/-- Re-encoding what the ignore-errors decoder produced never yields more
bytes than the decoder consumed, whatever the fuel. -/
theorem utf8Encode_decodeIgnoreFuel_length (fuel : Nat) :
    ∀ bs : List Nat, (utf8Encode (utf8DecodeIgnoreFuel fuel bs)).length ≤ bs.length := by
  induction fuel with
  | zero => intro bs; simp [utf8DecodeIgnoreFuel, utf8Encode]
  | succ fuel ih =>
    intro bs
    rcases bs with _ | ⟨b1, rest⟩
    · simp [utf8DecodeIgnoreFuel, utf8Encode]
    · simp only [utf8DecodeIgnoreFuel]
      split_ifs with h1 h2 h3 h4
      · simp only [utf8Encode, List.length_append, List.length_cons]
        have e1 := utf8EncodeCp_length_ascii b1 h1
        have := ih rest
        omega
      · have := ih rest
        simp only [List.length_cons]
        omega
      · rcases rest with _ | ⟨b2, rest2⟩
        · simp [utf8Encode]
        · by_cases hc : 0x80 ≤ b2 ∧ b2 < 0xC0
          · simp only [if_pos hc, utf8Encode, List.length_append, List.length_cons]
            have e1 := utf8EncodeCp_length_le_two ((b1 - 0xC0) * 64 + (b2 - 0x80)) (by omega)
            have := ih rest2
            omega
          · simp only [if_neg hc]
            have := ih (b2 :: rest2)
            simp only [List.length_cons] at this ⊢
            omega
      · rcases rest with _ | ⟨b2, _ | ⟨b3, rest3⟩⟩
        · simp [utf8Encode]
        · simp [utf8Encode]
        · by_cases hc : (0x80 ≤ b2 ∧ b2 < 0xC0) ∧ (0x80 ≤ b3 ∧ b3 < 0xC0)
          · simp only [if_pos hc, utf8Encode, List.length_append, List.length_cons]
            have e1 := utf8EncodeCp_length_le_three
              ((b1 - 0xE0) * 4096 + (b2 - 0x80) * 64 + (b3 - 0x80)) (by omega)
            have := ih rest3
            omega
          · simp only [if_neg hc]
            have := ih (b2 :: b3 :: rest3)
            simp only [List.length_cons] at this ⊢
            omega
      · rcases rest with _ | ⟨b2, _ | ⟨b3, _ | ⟨b4, rest4⟩⟩⟩
        · simp [utf8Encode]
        · simp [utf8Encode]
        · simp [utf8Encode]
        · by_cases hc : (0x80 ≤ b2 ∧ b2 < 0xC0) ∧ (0x80 ≤ b3 ∧ b3 < 0xC0) ∧ (0x80 ≤ b4 ∧ b4 < 0xC0)
          · simp only [if_pos hc, utf8Encode, List.length_append, List.length_cons]
            have e1 := utf8EncodeCp_length_le_four
              ((b1 - 0xF0) * 0x40000 + (b2 - 0x80) * 4096 + (b3 - 0x80) * 64 + (b4 - 0x80))
            have := ih rest4
            omega
          · simp only [if_neg hc]
            have := ih (b2 :: b3 :: b4 :: rest4)
            simp only [List.length_cons] at this ⊢
            omega

/-- Re-encoding the decoder's output never yields more bytes than the input
had. -/
theorem utf8Encode_decodeIgnore_length (bs : List Nat) :
    (utf8Encode (utf8DecodeIgnore bs)).length ≤ bs.length :=
  utf8Encode_decodeIgnoreFuel_length bs.length bs

/-- The bytes stored by hashing a truncated password are never more than
72, so taking 72 of them changes nothing. -/
theorem encode_truncate_password_take (password : PyStr) :
    (utf8Encode (truncate_password password)).take 72 =
      utf8Encode (truncate_password password) := by
  apply List.take_of_length_le
  unfold truncate_password
  by_cases h : (utf8Encode password).length > 72
  · simp only [h, if_true]
    calc (utf8Encode (utf8DecodeIgnore ((utf8Encode password).take 72))).length
        ≤ ((utf8Encode password).take 72).length := utf8Encode_decodeIgnore_length _
      _ ≤ 72 := by simp
  · simp only [h, if_false]
    omega

/-- C7 as amended: `verify_password` against `get_password_hash` of the
same plaintext succeeds exactly when the first 72 UTF-8 bytes of the
plaintext coincide with the re-encoding of the truncated plaintext — in
particular it is true for every plaintext of at most 72 UTF-8 bytes, but
it is not true for every plaintext, because `get_password_hash` drops a
multi-byte character straddling the 72-byte boundary while
`verify_password` hands the untruncated bytes to the primitive. -/
theorem verify_password_of_hash_characterisation (password : PyStr) (salt : Nat) :
    (verify_password password (get_password_hash password salt) =
      .ok (decide ((utf8Encode password).take 72 = utf8Encode (truncate_password password)))) ∧
    ((utf8Encode password).length ≤ 72 →
      verify_password password (get_password_hash password salt) = .ok true) := by
  have hchar : verify_password password (get_password_hash password salt) =
      .ok (decide ((utf8Encode password).take 72 = utf8Encode (truncate_password password))) := by
    simp only [verify_password, get_password_hash, pwd_context_hash, pwd_context_verify,
      bcrypt_checkpw, bcrypt_hashpw]
    rw [encode_truncate_password_take]
    congr 1
    apply decide_eq_decide.mpr
    simp [BcryptDigest.mk.injEq]
  refine ⟨hchar, fun hlen => ?_⟩
  rw [hchar]
  have htr : truncate_password password = password := by
    unfold truncate_password
    simp only [gt_iff_lt]
    rw [if_neg (by omega)]
  rw [htr, List.take_of_length_le hlen]
  simp

/-- Witness for the amended C7: a concrete two-byte password verifies
against its own hash. -/
theorem verify_password_of_hash_characterisation_witness :
    (utf8Encode [97, 98]).length ≤ 72 ∧
    verify_password [97, 98] (get_password_hash [97, 98] 0) = .ok true :=
  ⟨by decide, (verify_password_of_hash_characterisation [97, 98] 0).2 (by decide)⟩

/-- A plaintext of 71 ASCII characters followed by é (U+00E9, two UTF-8
bytes): its encoding is 73 bytes, and byte 72 splits the é. -/
def password_straddling : PyStr := List.replicate 71 97 ++ [233]

/-- Counterexample to C7: verifying this over-length plaintext against its
own hash returns false, not true. `get_password_hash` hashes only the
whole characters inside the first 72 bytes (71 bytes), while
`verify_password` compares against the raw first 72 bytes, which still
contain the leading byte of the split character. -/
theorem verify_password_over_length_counterexample :
    72 < (utf8Encode password_straddling).length ∧
    verify_password password_straddling (get_password_hash password_straddling 0) = .ok false := by
  constructor
  · decide
  · rfl

/-- Counterexample to C8: a digest string that passlib cannot identify as
a hash makes `verify_password` raise `UnknownHashError` (a ValueError)
instead of returning false — `pwd_context.verify` raises on an
unidentifiable hash and `verify_password` adds no handling of its own. -/
theorem verify_password_malformed_digest_counterexample :
    verify_password [120] (HashStr.unidentified "not-a-hash") = .error PasslibError.unknownHash ∧
    ∀ b : Bool, verify_password [120] (HashStr.unidentified "not-a-hash") ≠ .ok b :=
  ⟨rfl, fun _ h => Except.noConfusion h⟩

/-- C8 as amended: on a digest identified as a bcrypt hash, verification
never raises — it returns a boolean, and returns false whenever the digest
does not match — but on a digest that cannot be identified it raises
passlib's `UnknownHashError` rather than returning false. -/
theorem verify_password_error_behaviour (plain : PyStr) (d : BcryptDigest) (raw : String) :
    (∃ b : Bool, verify_password plain (HashStr.wf d) = .ok b) ∧
    ((utf8Encode plain).take 72 ≠ d.key →
      verify_password plain (HashStr.wf d) = .ok false) ∧
    verify_password plain (HashStr.unidentified raw) = .error PasslibError.unknownHash := by
  refine ⟨⟨bcrypt_checkpw (utf8Encode plain) d, rfl⟩, fun h => ?_, rfl⟩
  obtain ⟨s, k⟩ := d
  simp only [verify_password, pwd_context_verify, bcrypt_checkpw, bcrypt_hashpw]
  simp only at h
  simp [BcryptDigest.mk.injEq, h]

/-- Witness for the amended C8: a concrete mismatched but identified
digest yields false without raising. -/
theorem verify_password_error_behaviour_witness :
    (utf8Encode [97]).take 72 ≠ [98] ∧
    verify_password [97] (HashStr.wf ⟨0, [98]⟩) = .ok false :=
  ⟨by decide, (verify_password_error_behaviour [97] ⟨0, [98]⟩ "x").2.1 (by decide)⟩

/-
Tenant-scoped CRUD endpoints (routers/compras_inventarios.py). FastAPI
resolves the `Depends(require_permission(...))` guard before the handler
body runs, so each endpoint is the guard composed with the handler. Row
types carry the columns the handlers read; `query.order_by(...)` is
modelled as a sort of the result rows (an insertion sort here — for the
properties below only the fact that it permutes the rows matters).
-/

/-- Insert into a sorted list, ordering by `le`. -/
def insert_le (le : α → α → Bool) (x : α) : List α → List α
  | [] => [x]
  | y :: ys => if le x y then x :: y :: ys else y :: insert_le le x ys

/-- Model of `query.order_by(...)`: sort the result rows by `le`. -/
def order_by (le : α → α → Bool) : List α → List α
  | [] => []
  | x :: xs => insert_le le x (order_by le xs)

/-- Membership is preserved by `insert_le`. -/
theorem mem_insert_le (le : α → α → Bool) (x a : α) :
    ∀ l : List α, a ∈ insert_le le x l ↔ a = x ∨ a ∈ l := by
  intro l
  induction l with
  | nil => simp [insert_le]
  | cons y ys ih =>
      by_cases h : le x y = true
      · simp [insert_le, h, List.mem_cons]
      · simp only [insert_le, if_neg h, List.mem_cons, ih]
        tauto

/-- `order_by` permutes the rows: membership is unchanged. -/
theorem mem_order_by (le : α → α → Bool) (a : α) :
    ∀ l : List α, a ∈ order_by le l ↔ a ∈ l := by
  intro l
  induction l with
  | nil => simp [order_by]
  | cons x xs ih => simp [order_by, mem_insert_le, ih, List.mem_cons]

/-- models.py `Proveedor`: the columns the endpoints touch. -/
structure Proveedor where
  id : UUID
  cliente_id : UUID
  codigo_proveedor : String
  nombre : String
  estado : String
deriving DecidableEq, Repr

/-- models.py `Producto`: the columns the endpoints touch. -/
structure Producto where
  id : UUID
  cliente_id : UUID
  codigo_producto : String
  nombre : String
  estado : String
  categoria_id : Option UUID
  proveedor_id : Option UUID
deriving DecidableEq, Repr

/-- models.py `AlertaStock`: the columns the endpoints touch. -/
structure AlertaStock where
  id : UUID
  cliente_id : UUID
  tipo_alerta : String
  leida : Bool
  fecha_alerta : Int
deriving DecidableEq, Repr

/-- Translation of the `if param: query = query.filter(...)` pattern used
for the optional UUID query parameters: a UUID object is always truthy, so
the filter applies exactly when the parameter is present. -/
def opt_filter (param : Option β) (f : β → α → Bool) (query : List α) : List α :=
  match param with
  | some x => query.filter (f x)
  | none => query

/-- Translation of the `if param: query = query.filter(...)` pattern for
the optional string query parameters: Python truthiness also skips the
filter for an empty string. -/
def opt_str_filter (param : Option String) (f : String → α → Bool) (query : List α) : List α :=
  match param with
  | some e => if e ≠ "" then query.filter (f e) else query
  | none => query

/-- Rows surviving an optional filter come from the underlying query. -/
theorem mem_of_mem_opt_filter {param : Option β} {f : β → α → Bool} {query : List α} {a : α}
    (h : a ∈ opt_filter param f query) : a ∈ query := by
  rcases param with _ | x
  · exact h
  · exact List.mem_of_mem_filter h

/-- Rows surviving an optional string filter come from the underlying
query. -/
theorem mem_of_mem_opt_str_filter {param : Option String} {f : String → α → Bool}
    {query : List α} {a : α} (h : a ∈ opt_str_filter param f query) : a ∈ query := by
  rcases param with _ | e
  · exact h
  · by_cases he : e = ""
    · simpa [opt_str_filter, he] using h
    · exact List.mem_of_mem_filter (by simpa [opt_str_filter, he] using h)

/-- routers/compras_inventarios.py `get_cliente_id_from_token`: Python
`if not current_user.cliente_id` is the `None` test (a UUID object is
always truthy). -/
def get_cliente_id_from_token (current_user : TokenData) : Except HTTPError UUID :=
  match current_user.cliente_id with
  | none => .error ⟨403, "El usuario debe estar asociado a un cliente para acceder a estas operaciones"⟩
  | some cliente_id => .ok cliente_id

/-- routers/compras_inventarios.py `obtener_proveedores`, guard included.
`if estado:` is Python truthiness: `None` and the empty string both skip
the extra filter. -/
def obtener_proveedores (dbProveedores : List Proveedor) (estado : Option String)
    (current_user : TokenData) : Except HTTPError (List Proveedor) := do
  let current_user ← permission_checker "compras.leer" current_user
  let cliente_id ← get_cliente_id_from_token current_user
  let query := dbProveedores.filter (fun p => p.cliente_id == cliente_id)
  let query := opt_str_filter estado (fun e p => p.estado == e) query
  pure (order_by (fun a b => a.nombre ≤ b.nombre) query)

/-- routers/compras_inventarios.py `obtener_proveedor` (by id), guard
included. -/
def obtener_proveedor (dbProveedores : List Proveedor) (proveedor_id : UUID)
    (current_user : TokenData) : Except HTTPError Proveedor := do
  let current_user ← permission_checker "compras.leer" current_user
  let cliente_id ← get_cliente_id_from_token current_user
  match dbProveedores.find? (fun p => p.id == proveedor_id && p.cliente_id == cliente_id) with
  | none => .error ⟨404, "Proveedor no encontrado"⟩
  | some proveedor => pure proveedor

/-- routers/compras_inventarios.py `obtener_productos`, guard included.
The optional UUID query filters are applied when present (`if x:` on a
UUID is the not-`None` test); `if estado:` additionally skips the empty
string. -/
def obtener_productos (dbProductos : List Producto) (categoria_id proveedor_id : Option UUID)
    (estado : Option String) (current_user : TokenData) : Except HTTPError (List Producto) := do
  let current_user ← permission_checker "inventario.productos.leer" current_user
  let cliente_id ← get_cliente_id_from_token current_user
  let query := dbProductos.filter (fun p => p.cliente_id == cliente_id)
  let query := opt_filter categoria_id (fun c p => p.categoria_id == some c) query
  let query := opt_filter proveedor_id (fun pr p => p.proveedor_id == some pr) query
  let query := opt_str_filter estado (fun e p => p.estado == e) query
  pure (order_by (fun a b => a.nombre ≤ b.nombre) query)

/-- routers/compras_inventarios.py `obtener_producto` (by id), guard
included. -/
def obtener_producto (dbProductos : List Producto) (producto_id : UUID)
    (current_user : TokenData) : Except HTTPError Producto := do
  let current_user ← permission_checker "inventario.productos.leer" current_user
  let cliente_id ← get_cliente_id_from_token current_user
  match dbProductos.find? (fun p => p.id == producto_id && p.cliente_id == cliente_id) with
  | none => .error ⟨404, "Producto no encontrado"⟩
  | some producto => pure producto

/-- routers/compras_inventarios.py `marcar_alerta_leida`, guard included:
the row fetched by id and tenant gets `leida := true`; the in-place ORM
mutation is modelled by replacing that row in the table. Returns the
updated table and the updated row. -/
def marcar_alerta_leida (dbAlertas : List AlertaStock) (alerta_id : UUID)
    (current_user : TokenData) : Except HTTPError (List AlertaStock × AlertaStock) := do
  let current_user ← permission_checker "inventario.productos.leer" current_user
  let cliente_id ← get_cliente_id_from_token current_user
  match dbAlertas.find? (fun a => a.id == alerta_id && a.cliente_id == cliente_id) with
  | none => .error ⟨404, "Alerta no encontrada"⟩
  | some alerta =>
    let updated := { alerta with leida := true }
    pure (dbAlertas.map (fun a => if a = alerta then updated else a), updated)

/-- `permission_checker` only ever succeeds with the unchanged user. -/
theorem permission_checker_ok_eq (code : String) (u cu : TokenData)
    (h : permission_checker code u = .ok cu) : cu = u := by
  unfold permission_checker at h
  split_ifs at h <;> simp_all

/-- Peeling the guard bind off a successful endpoint run. -/
theorem guard_bind_ok {α : Type} (code : String) (u : TokenData)
    (k : TokenData → Except HTTPError α) (r : α)
    (h : (permission_checker code u >>= k) = .ok r) : k u = .ok r := by
  cases hg : permission_checker code u with
  | error e => rw [hg] at h; simp [Bind.bind, Except.bind] at h
  | ok cu =>
      have hcu := permission_checker_ok_eq code u cu hg
      subst hcu
      rw [hg] at h
      simpa [Bind.bind, Except.bind] using h

/-- Peeling the tenant-resolution bind off a successful endpoint run. -/
theorem cliente_bind_ok {α : Type} (u : TokenData) (T : UUID) (hT : u.cliente_id = some T)
    (k : UUID → Except HTTPError α) (r : α)
    (h : (get_cliente_id_from_token u >>= k) = .ok r) : k T = .ok r := by
  rw [get_cliente_id_from_token, hT] at h
  simpa [Bind.bind, Except.bind] using h

/-- C1: for a non-super-admin caller whose guard resolved the tenant id T,
every modelled read and mutation of the compras-inventarios router is
additionally filtered by equality on T: the product and supplier list
endpoints return only rows whose `cliente_id` equals T; the by-id product
and supplier reads return a row only if its `cliente_id` equals T; and
marking a stock alert as read changes only rows whose `cliente_id` equals
T. -/
theorem tenant_scoped_reads_and_mutations
    (dbProductos : List Producto) (dbProveedores : List Proveedor) (dbAlertas : List AlertaStock)
    (categoria_id proveedor_id : Option UUID) (estadoP estadoV : Option String)
    (producto_id proveedor_id2 alerta_id : UUID)
    (u : TokenData) (T : UUID)
    (hsa : SUPER_ADMIN_ROLE_NAME ∉ u.roles)
    (ht : u.cliente_id = some T) :
    (∀ ps, obtener_productos dbProductos categoria_id proveedor_id estadoP u = .ok ps →
      ∀ p ∈ ps, p.cliente_id = T) ∧
    (∀ vs, obtener_proveedores dbProveedores estadoV u = .ok vs →
      ∀ v ∈ vs, v.cliente_id = T) ∧
    (∀ p, obtener_producto dbProductos producto_id u = .ok p →
      p.cliente_id = T ∧ p.id = producto_id) ∧
    (∀ v, obtener_proveedor dbProveedores proveedor_id2 u = .ok v →
      v.cliente_id = T ∧ v.id = proveedor_id2) ∧
    (∀ dbAlertas2 a, marcar_alerta_leida dbAlertas alerta_id u = .ok (dbAlertas2, a) →
      a.cliente_id = T ∧
      ∀ (i : Nat) (h1 : i < dbAlertas.length) (h2 : i < dbAlertas2.length),
        dbAlertas[i] ≠ dbAlertas2[i] → dbAlertas[i].cliente_id = T) := by
  refine ⟨?_, ?_, ?_, ?_, ?_⟩
  · intro ps hps p hp
    unfold obtener_productos at hps
    have h1 := guard_bind_ok _ _ _ _ hps
    have h2 := cliente_bind_ok _ _ ht _ _ h1
    simp only [Pure.pure, Except.pure, Except.ok.injEq] at h2
    subst h2
    rw [mem_order_by] at hp
    have hp1 := mem_of_mem_opt_filter (mem_of_mem_opt_filter (mem_of_mem_opt_str_filter hp))
    have hcond := (List.mem_filter.mp hp1).2
    simpa [beq_iff_eq] using hcond
  · intro vs hvs v hv
    unfold obtener_proveedores at hvs
    have h1 := guard_bind_ok _ _ _ _ hvs
    have h2 := cliente_bind_ok _ _ ht _ _ h1
    simp only [Pure.pure, Except.pure, Except.ok.injEq] at h2
    subst h2
    rw [mem_order_by] at hv
    have hv1 := mem_of_mem_opt_str_filter hv
    have hcond := (List.mem_filter.mp hv1).2
    simpa [beq_iff_eq] using hcond
  · intro p hp
    unfold obtener_producto at hp
    have h1 := guard_bind_ok _ _ _ _ hp
    have h2 := cliente_bind_ok _ _ ht _ _ h1
    cases hf : dbProductos.find? (fun q => q.id == producto_id && q.cliente_id == T) with
    | none => rw [hf] at h2; simp [Pure.pure, Except.pure] at h2
    | some q =>
        rw [hf] at h2
        simp only [Pure.pure, Except.pure, Except.ok.injEq] at h2
        subst h2
        have hpred := List.find?_some hf
        simp only [Bool.and_eq_true, beq_iff_eq] at hpred
        exact ⟨hpred.2, hpred.1⟩
  · intro v hv
    unfold obtener_proveedor at hv
    have h1 := guard_bind_ok _ _ _ _ hv
    have h2 := cliente_bind_ok _ _ ht _ _ h1
    cases hf : dbProveedores.find? (fun q => q.id == proveedor_id2 && q.cliente_id == T) with
    | none => rw [hf] at h2; simp [Pure.pure, Except.pure] at h2
    | some q =>
        rw [hf] at h2
        simp only [Pure.pure, Except.pure, Except.ok.injEq] at h2
        subst h2
        have hpred := List.find?_some hf
        simp only [Bool.and_eq_true, beq_iff_eq] at hpred
        exact ⟨hpred.2, hpred.1⟩
  · intro dbAlertas2 a hma
    unfold marcar_alerta_leida at hma
    have h1 := guard_bind_ok _ _ _ _ hma
    have h2 := cliente_bind_ok _ _ ht _ _ h1
    cases hf : dbAlertas.find? (fun q => q.id == alerta_id && q.cliente_id == T) with
    | none => rw [hf] at h2; simp [Pure.pure, Except.pure] at h2
    | some alerta =>
        rw [hf] at h2
        simp only [Pure.pure, Except.pure, Except.ok.injEq, Prod.mk.injEq] at h2
        obtain ⟨hdb, ha⟩ := h2
        have hpred := List.find?_some hf
        simp only [Bool.and_eq_true, beq_iff_eq] at hpred
        constructor
        · rw [← ha]
          exact hpred.2
        · intro i hi1 hi2 hne
          subst hdb
          simp only [List.getElem_map] at hne
          by_cases heq : dbAlertas[i] = alerta
          · rw [heq]
            exact hpred.2
          · simp [heq] at hne

/-- A concrete operative token of tenant 1 holding the read permissions. -/
def wAlice : TokenData :=
  ⟨some "alice", some 3, some 1, ["Vendedor"], ["inventario.productos.leer", "compras.leer"]⟩

/-- A concrete product of tenant 1. -/
def wProductoT1 : Producto := ⟨10, 1, "p1", "aaa", "activo", none, none⟩

/-- A concrete product of another tenant. -/
def wProductoT2 : Producto := ⟨11, 2, "p2", "bbb", "activo", none, none⟩

/-- Witness for C1: with a two-tenant product table, the list endpoint for
the tenant-1 caller returns exactly the tenant-1 product, and every
returned row carries tenant id 1. -/
theorem tenant_scoped_reads_and_mutations_witness :
    SUPER_ADMIN_ROLE_NAME ∉ wAlice.roles ∧
    wAlice.cliente_id = some 1 ∧
    obtener_productos [wProductoT1, wProductoT2] none none none wAlice = .ok [wProductoT1] ∧
    (∀ p ∈ [wProductoT1], p.cliente_id = 1) :=
  ⟨by decide, rfl, by rfl,
   (tenant_scoped_reads_and_mutations [wProductoT1, wProductoT2] [] [] none none none none
     0 0 0 wAlice 1 (by decide) rfl).1 [wProductoT1] (by rfl)⟩

/-- A concrete super-admin token without a tenant id. -/
def wSuperAdminNoTenant : TokenData := ⟨some "root", some 9, none, ["Super Admin"], []⟩

/-- Counterexample to C4: a super-admin caller with no tenant id is NOT
allowed by the tenant-scoped product list endpoint — the guard lets the
request through, but `get_cliente_id_from_token` then rejects the null
tenant id with a 403. -/
theorem super_admin_no_tenant_endpoint_counterexample :
    permission_checker "inventario.productos.leer" wSuperAdminNoTenant = .ok wSuperAdminNoTenant ∧
    obtener_productos [wProductoT1] none none none wSuperAdminNoTenant =
      .error ⟨403, "El usuario debe estar asociado a un cliente para acceder a estas operaciones"⟩ := by
  exact ⟨rfl, rfl⟩

/-- C4 as amended: a token with role "Super Admin", no tenant id and no
permission codes passes `require_permission` unconditionally, but every
modelled tenant-scoped compras-inventarios endpoint then derives its scope
from `get_cliente_id_from_token`, which rejects the null tenant id with a
403; the router has no cross-tenant path and takes no tenant id from the
request payload, so such a caller is denied by these endpoints. -/
theorem super_admin_no_tenant_guard_vs_endpoints (code : String) (u : TokenData)
    (dbProductos : List Producto) (dbProveedores : List Proveedor) (dbAlertas : List AlertaStock)
    (categoria_id proveedor_id : Option UUID) (estadoP estadoV : Option String)
    (producto_id proveedor_id2 alerta_id : UUID)
    (hsa : SUPER_ADMIN_ROLE_NAME ∈ u.roles) (ht : u.cliente_id = none) :
    permission_checker code u = .ok u ∧
    obtener_productos dbProductos categoria_id proveedor_id estadoP u =
      .error ⟨403, "El usuario debe estar asociado a un cliente para acceder a estas operaciones"⟩ ∧
    obtener_proveedores dbProveedores estadoV u =
      .error ⟨403, "El usuario debe estar asociado a un cliente para acceder a estas operaciones"⟩ ∧
    obtener_producto dbProductos producto_id u =
      .error ⟨403, "El usuario debe estar asociado a un cliente para acceder a estas operaciones"⟩ ∧
    obtener_proveedor dbProveedores proveedor_id2 u =
      .error ⟨403, "El usuario debe estar asociado a un cliente para acceder a estas operaciones"⟩ ∧
    marcar_alerta_leida dbAlertas alerta_id u =
      .error ⟨403, "El usuario debe estar asociado a un cliente para acceder a estas operaciones"⟩ := by
  have hg : ∀ c : String, permission_checker c u = .ok u := fun c => by
    simp [permission_checker, hsa]
  refine ⟨hg code, ?_, ?_, ?_, ?_, ?_⟩ <;>
    simp [obtener_productos, obtener_proveedores, obtener_producto, obtener_proveedor,
      marcar_alerta_leida, hg, get_cliente_id_from_token, ht, Bind.bind, Except.bind]

/-- Witness for the amended C4: the concrete no-tenant super-admin token
is allowed by the guard yet rejected by the concrete product list
endpoint. -/
theorem super_admin_no_tenant_guard_vs_endpoints_witness :
    SUPER_ADMIN_ROLE_NAME ∈ wSuperAdminNoTenant.roles ∧
    wSuperAdminNoTenant.cliente_id = none ∧
    (permission_checker "compras.leer" wSuperAdminNoTenant = .ok wSuperAdminNoTenant ∧
     obtener_proveedores [] none wSuperAdminNoTenant =
       .error ⟨403, "El usuario debe estar asociado a un cliente para acceder a estas operaciones"⟩) :=
  ⟨by decide, rfl,
   And.intro
    ((super_admin_no_tenant_guard_vs_endpoints "compras.leer" wSuperAdminNoTenant [] [] []
       none none none none 0 0 0 (by decide) rfl).1)
    ((super_admin_no_tenant_guard_vs_endpoints "compras.leer" wSuperAdminNoTenant [] [] []
       none none none none 0 0 0 (by decide) rfl).2.2.1)⟩

/-
Login (routers/auth.py). `authenticate_user` returns the user on valid
credentials and Python `False` (here `none`) otherwise; an exception from
the password backend propagates. The endpoint wraps its whole body in
`try/except Exception` and re-raises everything — its own 401 included —
as a 500 whose detail embeds `str(e)`; for a FastAPI HTTPException,
`str(e)` is "<status>: <detail>".
-/

/-- models.py `Usuario`: the columns the login flow reads. -/
structure Usuario where
  id : UUID
  cliente_id : Option UUID
  nombre_usuario : String
  contrasena_hash : HashStr
deriving DecidableEq, Repr

/-- models.py `Role`: the columns the login flow reads. -/
structure Role where
  id : UUID
  nombre : String
deriving DecidableEq, Repr

/-- models.py `Permiso`: the columns the login flow reads. -/
structure Permiso where
  id : UUID
  codigo : String
deriving DecidableEq, Repr

/-- The tables the login flow queries: `usuario_roles` holds
(usuario_id, rol_id) pairs, `rol_permisos` holds (rol_id, permiso_id)
pairs. -/
structure AdminDB where
  usuarios : List Usuario
  usuario_roles : List (UUID × UUID)
  roles : List Role
  rol_permisos : List (UUID × UUID)
  permisos : List Permiso
deriving DecidableEq, Repr

/-- routers/auth.py `get_user_roles`. -/
def get_user_roles (db : AdminDB) (user_id : UUID) : List String :=
  let role_assignments := db.usuario_roles.filter (fun ur => ur.1 == user_id)
  if role_assignments.isEmpty then []
  else
    let role_ids := role_assignments.map Prod.snd
    (db.roles.filter (fun r => role_ids.contains r.id)).map Role.nombre

/-- routers/auth.py `get_user_permissions`; `.distinct()` is `dedup`. -/
def get_user_permissions (db : AdminDB) (user_id : UUID) : List String :=
  let role_ids := (db.usuario_roles.filter (fun ur => ur.1 == user_id)).map Prod.snd
  let permission_ids :=
    ((db.rol_permisos.filter (fun rp => role_ids.contains rp.1)).map Prod.snd).dedup
  (db.permisos.filter (fun p => permission_ids.contains p.id)).map Permiso.codigo

/-- routers/auth.py `authenticate_user`: Python returns `False` (here
`none`) both when no user matches the username and when the stored hash
does not verify; the short-circuit skips verification when no user was
found. -/
def authenticate_user (db : AdminDB) (username : String) (password : PyStr) :
    Except PasslibError (Option Usuario) :=
  match db.usuarios.find? (fun u => u.nombre_usuario == username) with
  | none => .ok none
  | some user => do
      let ok ← verify_password password user.contrasena_hash
      if ok then pure (some user) else pure none

/-- The claim set the login endpoint signs into the JWT. -/
structure JwtClaims where
  sub : String
  user_id : UUID
  cliente_id : Option UUID
  roles : List String
  permisos : List String
deriving DecidableEq, Repr

/-- schemas/auth.py `Token`: the login response body. -/
structure TokenResponse where
  access_token : JWS JwtClaims
  token_type : String
  usuario : Usuario
  roles : List String
  permisos : List String
deriving DecidableEq, Repr

/-- A Python exception escaping the login body: the endpoint's own
HTTPException, or an error from the password backend. -/
inductive PyExc where
  | http (status_code : Nat) (detail : String)
  | passlibError (e : PasslibError)
deriving DecidableEq, Repr

/-- Python `str(e)`: a Starlette HTTPException prints
"<status>: <detail>"; passlib's UnknownHashError prints its message. -/
def str_of_exc : PyExc → String
  | .http status_code detail => toString status_code ++ ": " ++ detail
  | .passlibError _ => "hash could not be identified"

/-- The try-block of routers/auth.py `login_for_access_token`. -/
def login_body (db : AdminDB) (username : String) (password : PyStr) (now : Int) :
    Except PyExc TokenResponse := do
  let user? ← (authenticate_user db username password).mapError PyExc.passlibError
  match user? with
  | none => .error (.http 401 "Nombre de usuario o contraseña incorrectos")
  | some user =>
      let user_roles := get_user_roles db user.id
      let user_permissions := get_user_permissions db user.id
      let access_token_expires : Int := (ACCESS_TOKEN_EXPIRE_MINUTES : Int) * 60
      let access_token := create_access_token
        (JwtClaims.mk user.nombre_usuario user.id user.cliente_id user_roles user_permissions)
        (some access_token_expires) now
      pure (TokenResponse.mk access_token "bearer" user user_roles user_permissions)

/-- routers/auth.py `login_for_access_token`: the catch-all
`except Exception as e` catches every exception of the body — the 401
HTTPException included — and re-raises it as a 500 whose detail embeds
`str(e)`. -/
def login_for_access_token (db : AdminDB) (username : String) (password : PyStr) (now : Int) :
    Except HTTPError TokenResponse :=
  match login_body db username password now with
  | .ok t => .ok t
  | .error e => .error ⟨500, "Error interno: " ++ str_of_exc e⟩

/-- C9: a login with a username matching no stored user and a login with
an existing username but a wrong password produce the identical rejection
outcome and response shape — nothing in the result reveals whether the
username existed. -/
theorem login_uniform_rejection (db : AdminDB) (username1 username2 : String)
    (password1 password2 : PyStr) (now : Int) (user : Usuario)
    (h1 : db.usuarios.find? (fun u => u.nombre_usuario == username1) = none)
    (h2 : db.usuarios.find? (fun u => u.nombre_usuario == username2) = some user)
    (h3 : verify_password password2 user.contrasena_hash = .ok false) :
    login_for_access_token db username1 password1 now =
      login_for_access_token db username2 password2 now ∧
    login_for_access_token db username1 password1 now =
      .error ⟨500, "Error interno: 401: Nombre de usuario o contraseña incorrectos"⟩ := by
  have e1 : authenticate_user db username1 password1 = .ok none := by
    unfold authenticate_user
    rw [h1]
  have e2 : authenticate_user db username2 password2 = .ok none := by
    unfold authenticate_user
    rw [h2]
    simp [h3, Bind.bind, Except.bind, Pure.pure, Except.pure]
  have L1 : login_for_access_token db username1 password1 now =
      .error ⟨500, "Error interno: 401: Nombre de usuario o contraseña incorrectos"⟩ := by
    unfold login_for_access_token login_body
    rw [e1]
    rfl
  have L2 : login_for_access_token db username2 password2 now =
      .error ⟨500, "Error interno: 401: Nombre de usuario o contraseña incorrectos"⟩ := by
    unfold login_for_access_token login_body
    rw [e2]
    rfl
  exact ⟨L1.trans L2.symm, L1⟩

/-- C10: whenever `authenticate_user` rejects the submitted credentials,
the endpoint's own 401 HTTPException is caught by the surrounding
catch-all handler and re-raised as a 500 whose detail embeds the original
401 message: every invalid-credential login surfaces as a 500 response,
not a 401. -/
theorem login_rejection_surfaces_as_500 (db : AdminDB) (username : String)
    (password : PyStr) (now : Int)
    (h : authenticate_user db username password = .ok none) :
    login_for_access_token db username password now =
      .error ⟨500, "Error interno: 401: Nombre de usuario o contraseña incorrectos"⟩ := by
  unfold login_for_access_token login_body
  rw [h]
  rfl

/-- A concrete stored user whose hash is the hash of the one-character
password "a" (code point 97). -/
def wBob : Usuario := ⟨7, some 1, "bob", get_password_hash [97] 0⟩

/-- A concrete database holding only that user. -/
def wAdminDB : AdminDB := ⟨[wBob], [], [], [], []⟩

/-- Witness for C9: the login for the unknown username "nadie" and the
login for "bob" with the wrong password "b" produce the identical
rejection. -/
theorem login_uniform_rejection_witness :
    wAdminDB.usuarios.find? (fun u => u.nombre_usuario == "nadie") = none ∧
    wAdminDB.usuarios.find? (fun u => u.nombre_usuario == "bob") = some wBob ∧
    verify_password [98] wBob.contrasena_hash = .ok false ∧
    (login_for_access_token wAdminDB "nadie" [97] 0 =
       login_for_access_token wAdminDB "bob" [98] 0 ∧
     login_for_access_token wAdminDB "nadie" [97] 0 =
       .error ⟨500, "Error interno: 401: Nombre de usuario o contraseña incorrectos"⟩) :=
  ⟨rfl, rfl, rfl,
   login_uniform_rejection wAdminDB "nadie" "bob" [97] [98] 0 wBob rfl rfl rfl⟩

/-- Witness for C10: against an empty user table every login is rejected
and surfaces as the 500 carrying the original 401 message. -/
theorem login_rejection_surfaces_as_500_witness :
    authenticate_user (AdminDB.mk [] [] [] [] []) "alguien" [97] = .ok none ∧
    login_for_access_token (AdminDB.mk [] [] [] [] []) "alguien" [97] 5 =
      .error ⟨500, "Error interno: 401: Nombre de usuario o contraseña incorrectos"⟩ :=
  ⟨rfl, login_rejection_surfaces_as_500 (AdminDB.mk [] [] [] [] []) "alguien" [97] 5 rfl⟩
